import Mathlib

/-!
Verification development for the otintegration repository (Go): opentracing
glue for the gin and go-json-rest web frameworks.

Shallow embedding notes.

The repository files each contain several concatenated source variants; the
definitions below are translated from the variants the claims cite:
  - top-level definitions follow the current otintegration package
    (span.go third segment, middleware.go first segment, gin_span.go,
    gorest_spn.go, src/unnamed/part_002);
  - namespace Otracing2gin holds the otracing2gin variant of
    StartSpanWithHeader (span.go first segment, lines 72-78), which swallows
    the extraction error and falls back to a root span;
  - namespace SpanV3 holds the third span.go segment's InjectToBinary
    (lines 491-493), which does not reset the carrier buffer; the top-level
    InjectToBinary is the second segment's (lines 343-347), which does.

Modelling conventions:
  - the externally supplied opentracing Tracer is a record of its extraction
    and injection behaviour; per the opentracing contract its StartSpan always
    returns a (non-nil) span recording the operation name and start options,
    with the tracer-assigned identity abstracted as the field nextCtx;
  - Go interface values that may be nil are Option; a Go (value, error) pair
    is a Lean pair of Options;
  - runtime.NumGoroutine() is threaded as an explicit ambient argument gor;
  - the per-request store (gin context values / gorest Env) is an association
    list from string keys to dynamic values; a Go type assertion to
    opentracing.Span succeeds exactly on the Dyn.span constructor, and an
    unchecked assertion on any other stored value panics;
  - each middleware (a gin.HandlerFunc / gorest closure) is run on a request:
    it receives the request data, the rest of the handler chain as an
    abstract function next (which may panic), and the incoming store, and
    returns the span lifecycle events the middleware itself performs, its
    final store, the abort status it set (AbortWithError and
    AbortWithStatusJSON both write http.StatusInternalServerError = 500),
    and the control outcome.  A Go deferred Finish runs on every exit of the
    handler scope, including panic unwinding, so the finish event is emitted
    in every branch where a span was started, whatever next does.
-/

/-- Propagatable identity of a span (opentracing.SpanContext), kept abstract. -/
structure SpanContext where
  id : Nat
deriving DecidableEq

/-- An extraction/decode error returned by tracer.Extract (opentracing.ErrSpanContextNotFound etc.), kept abstract. -/
structure ExtractErr where
  code : Nat
deriving DecidableEq

/-- A Go value used as a tag value or log payload (interface argument). -/
inductive TagValue
  | str (s : String)
  | int (n : Int)
  | otherVal
deriving DecidableEq

/-- An opentracing.Tag start option payload. -/
structure Tag where
  key : String
  value : TagValue
deriving DecidableEq

/-- opentracing.StartSpanOption as used by this repository: a tag or a ChildOf reference. -/
inductive StartSpanOption
  | tag (t : Tag)
  | childOf (parent : SpanContext)
deriving DecidableEq

/-- A (non-nil) span created by a tracer: the operation name and start options
it was created with, plus its tracer-assigned context. -/
structure Span where
  operationName : String
  opts : List StartSpanOption
  ctx : SpanContext
deriving DecidableEq

/-- An HTTP header carrier: a textual header map, kept abstract (only the
tracer interprets it). -/
abbrev Headers := List (String × String)

/-- The binary carrier (TraceInfo interface over an io.ReadWriter byte buffer). -/
structure TraceInfo where
  buf : List Nat
deriving DecidableEq

/-- The externally supplied opentracing.Tracer capability: extraction and
injection behaviour over the two carrier kinds, and the context identity it
assigns to newly started spans. -/
structure Tracer where
  extractHeaders : Headers → Except ExtractErr SpanContext
  extractTextMap : Headers → Except ExtractErr SpanContext
  extractBinary : List Nat → Except ExtractErr SpanContext
  injectBinary : SpanContext → List Nat
  injectHeaders : SpanContext → Headers → Headers
  nextCtx : SpanContext

/-- tracer.StartSpan(name, options...): per the opentracing contract it
returns a span recording the operation name and options. -/
def Tracer.startSpan (t : Tracer) (name : String) (opts : List StartSpanOption) : Span :=
  { operationName := name, opts := opts, ctx := t.nextCtx }

/-- A dynamic value stored in a per-request store slot: either an
opentracing.Span, or any value of another type. -/
inductive Dyn
  | span (s : Span)
  | otherDyn
deriving DecidableEq

/-- The per-request store (gin context key-value storage / gorest r.Env). -/
abbrev Store := List (String × Dyn)

/-- c.Get(key) / r.Env[key]: first (most recent) binding wins. -/
def Store.get (st : Store) (k : String) : Option Dyn :=
  List.lookup k st

/-- c.Set(key, v) / r.Env[key] = v: overwrite by shadowing. -/
def Store.set (st : Store) (k : String) (v : Dyn) : Store :=
  (k, v) :: st

/-- The well-known store key (const spanContextKey). -/
def spanContextKey : String := "tracing-context"

/-- ext.SpanKindRPCServer.Key. -/
def spanKindKey : String := "span.kind"

/-- ext.SpanKindRPCServer.Value. -/
def spanKindServerValue : String := "server"

/-- string(ext.HTTPMethod). -/
def httpMethodKey : String := "http.method"

/-- string(ext.HTTPUrl). -/
def httpUrlKey : String := "http.url"

/-- The current-goroutines gauge tag key. -/
def goroutinesKey : String := "current-goroutines"

/-- The default operation-name prefixing string for nil operationPrefix. -/
def apiRequestDefault : String := "api-request"

/-- The repository error ErrSpanNotFound ("span was not found in context"). -/
inductive GoErr
  | spanNotFound
deriving DecidableEq

def ErrSpanNotFound : GoErr := GoErr.spanNotFound

/-- StartSpanWithParent (span.go lines 48-61 / part_002 lines 33-45): server
tags plus an optional ChildOf reference; gor is the ambient
runtime.NumGoroutine() reading. -/
def StartSpanWithParent (t : Tracer) (gor : Int) (parent : Option SpanContext)
    (operationName method path : String) : Span :=
  let options : List StartSpanOption :=
    [ StartSpanOption.tag { key := spanKindKey, value := TagValue.str spanKindServerValue },
      StartSpanOption.tag { key := httpMethodKey, value := TagValue.str method },
      StartSpanOption.tag { key := httpUrlKey, value := TagValue.str path },
      StartSpanOption.tag { key := goroutinesKey, value := TagValue.int gor } ]
  let options :=
    match parent with
    | some p => options ++ [StartSpanOption.childOf p]
    | none => options
  t.startSpan operationName options

/-- StartSpan: a root span, delegating to StartSpanWithParent with nil parent. -/
def StartSpan (t : Tracer) (gor : Int) (operationName method path : String) : Span :=
  StartSpanWithParent t gor none operationName method path

/-- StartSpanWithBinParent: span-kind and goroutine-gauge tags plus an
optional ChildOf reference. -/
def StartSpanWithBinParent (t : Tracer) (gor : Int) (parent : Option SpanContext)
    (operationName : String) : Span :=
  let options : List StartSpanOption :=
    [ StartSpanOption.tag { key := spanKindKey, value := TagValue.str spanKindServerValue },
      StartSpanOption.tag { key := goroutinesKey, value := TagValue.int gor } ]
  let options :=
    match parent with
    | some p => options ++ [StartSpanOption.childOf p]
    | none => options
  t.startSpan operationName options

/-- StartSpanWithHeader (part_002 lines 61-70): on a non-nil header whose
extraction fails it returns (nil, err); otherwise a span and nil error. -/
def StartSpanWithHeader (t : Tracer) (gor : Int) (header : Option Headers)
    (operationName method path : String) : Option Span × Option ExtractErr :=
  match header with
  | some h =>
      match t.extractHeaders h with
      | Except.error e => (none, some e)
      | Except.ok c =>
          (some (StartSpanWithParent t gor (some c) operationName method path), none)
  | none => (some (StartSpanWithParent t gor none operationName method path), none)

namespace Otracing2gin

/-- StartSpanWithHeader (span.go first segment, lines 72-78): the extraction
error is discarded; a failed extraction leaves wireContext nil, so the span
falls back to a root span. -/
def StartSpanWithHeader (t : Tracer) (gor : Int) (header : Option Headers)
    (operationName method path : String) : Span :=
  let wireContext : Option SpanContext :=
    match header with
    | some h =>
        match t.extractHeaders h with
        | Except.ok c => some c
        | Except.error _ => none
    | none => none
  StartSpanWithParent t gor wireContext operationName method path

end Otracing2gin

/-- ExtractFromBinary (span.go lines 482-489): Go (SpanContext, error) pair;
nil context together with the error on failure. -/
def ExtractFromBinary (t : Tracer) (inter : TraceInfo) :
    Option SpanContext × Option ExtractErr :=
  match t.extractBinary inter.buf with
  | Except.error e => (none, some e)
  | Except.ok c => (some c, none)

/-- InjectToBinary (span.go lines 343-347, second segment): resets the
caller-owned buffer and then writes the tracer's binary encoding. -/
def InjectToBinary (t : Tracer) (ctx : SpanContext) (inter : TraceInfo) : TraceInfo :=
  let inter : TraceInfo := { inter with buf := [] }
  { inter with buf := inter.buf ++ t.injectBinary ctx }

namespace SpanV3

/-- InjectToBinary (span.go lines 491-493, third segment): writes the binary
encoding to the carrier without resetting it first (io.Writer append). -/
def InjectToBinary (t : Tracer) (ctx : SpanContext) (inter : TraceInfo) : TraceInfo :=
  { inter with buf := inter.buf ++ t.injectBinary ctx }

end SpanV3

/-- StartSpanFromBinary (span.go lines 515-519 / part_002 lines 136-140):
extract first, then unconditionally start a span with the (possibly nil)
extracted parent, returning it together with the extraction error. -/
def StartSpanFromBinary (t : Tracer) (gor : Int) (inter : TraceInfo)
    (operName : String) : Option Span × Option ExtractErr :=
  let r := ExtractFromBinary t inter
  (some (StartSpanWithBinParent t gor r.1 operName), r.2)

/-- GetGinSpan (gin_span.go lines 9-16): checked typed retrieval with Go
(Span, error) return. -/
def GetGinSpan (store : Store) : Option Span × Option GoErr :=
  match Store.get store spanContextKey with
  | some (Dyn.span s) => (some s, none)
  | _ => (none, some ErrSpanNotFound)

/-- GetGorestSpan (gorest_spn.go lines 9-16): checked typed retrieval from
r.Env with Go (Span, error) return. -/
def GetGorestSpan (env : Store) : Option Span × Option GoErr :=
  match Store.get env spanContextKey with
  | some (Dyn.span s) => (some s, none)
  | _ => (none, some ErrSpanNotFound)

/-- The slot of the tracing-context key never received a span: absent, or
holding a value of another type. -/
def noSpanSlot (store : Store) : Prop :=
  Store.get store spanContextKey = none ∨ Store.get store spanContextKey = some Dyn.otherDyn

/-- A span with no ChildOf start option: a root span. -/
def isRootSpan (s : Span) : Prop :=
  ∀ p : SpanContext, StartSpanOption.childOf p ∉ s.opts

/-- Span lifecycle events a middleware performs. -/
inductive Ev
  | start (s : Span)
  | finish (s : Span)
deriving DecidableEq

/-- Occurrences of an event in a trace. -/
def countEv (e : Ev) : List Ev → Nat
  | [] => 0
  | x :: xs => (if x = e then 1 else 0) + countEv e xs

/-- Control outcome of running a middleware: normal return, or a propagating
panic. -/
inductive Outcome
  | ok
  | panicked
deriving DecidableEq

/-- Result of running one middleware on one request: its own span lifecycle
events, its final store, the abort status it set (500 on AbortWithError /
AbortWithStatusJSON), and the control outcome. -/
structure MwResult where
  spanEvents : List Ev
  store : Store
  aborted : Option Nat
  outcome : Outcome
deriving DecidableEq

/-- The shared traced tail of the span-starting middlewares:
ctx.Set(spanContextKey, span); defer span.Finish(); ctx.Next().  The deferred
Finish runs on every exit of the scope, including panic unwinding of next,
so the finish event is recorded in both outcomes. -/
def tracedResult (span : Span) (next : Store → Outcome) (store : Store) : MwResult :=
  let store := Store.set store spanContextKey (Dyn.span span)
  { spanEvents := [Ev.start span, Ev.finish span]
    store := store
    aborted := none
    outcome := next store }

/-- NewSpan (span.go lines 106-114): start, stash, defer finish, run chain. -/
def NewSpan (t : Tracer) (operationName : String) (opts : List StartSpanOption)
    (next : Store → Outcome) (store : Store) : MwResult :=
  tracedResult (t.startSpan operationName opts) next store

/-- SpanFromHeaders (span.go lines 127-146): extract in TextMap format; on
error abort with 500 when abortOnErrors, else return untraced; on success
start a span referenced through psr and run the chain. -/
def SpanFromHeaders (t : Tracer) (operationName : String)
    (psr : SpanContext → StartSpanOption) (abortOnErrors : Bool)
    (advancedOpts : List StartSpanOption) (headers : Headers)
    (next : Store → Outcome) (store : Store) : MwResult :=
  match t.extractTextMap headers with
  | Except.error _ =>
      { spanEvents := []
        store := store
        aborted := if abortOnErrors then some 500 else none
        outcome := Outcome.ok }
  | Except.ok spanContext =>
      tracedResult (t.startSpan operationName (psr spanContext :: advancedOpts)) next store

/-- SpanFromHeadersHTTPFmt (span.go lines 154-173): as SpanFromHeaders but
extracting in HTTPHeaders format. -/
def SpanFromHeadersHTTPFmt (t : Tracer) (operationName : String)
    (psr : SpanContext → StartSpanOption) (abortOnErrors : Bool)
    (advancedOpts : List StartSpanOption) (headers : Headers)
    (next : Store → Outcome) (store : Store) : MwResult :=
  match t.extractHeaders headers with
  | Except.error _ =>
      { spanEvents := []
        store := store
        aborted := if abortOnErrors then some 500 else none
        outcome := Outcome.ok }
  | Except.ok spanContext =>
      tracedResult (t.startSpan operationName (psr spanContext :: advancedOpts)) next store

/-- SpanFromContext (span.go lines 181-202): checked lookup of the stored
parent span; on absence or a non-Span value abort with 500 when
abortOnErrors, else return untraced. -/
def SpanFromContext (t : Tracer) (operationName : String) (abortOnErrors : Bool)
    (advancedOpts : List StartSpanOption) (next : Store → Outcome)
    (store : Store) : MwResult :=
  match Store.get store spanContextKey with
  | some (Dyn.span parentSpan) =>
      tracedResult
        (t.startSpan operationName (StartSpanOption.childOf parentSpan.ctx :: advancedOpts))
        next store
  | _ =>
      { spanEvents := []
        store := store
        aborted := if abortOnErrors then some 500 else none
        outcome := Outcome.ok }

/-- InjectToHeaders (span.go lines 210-225): checked lookup of the stored
span; inject its context into the request headers, or on absence abort with
500 when abortOnErrors.  Returns the abort status and the final headers. -/
def InjectToHeaders (t : Tracer) (abortOnErrors : Bool) (headers : Headers)
    (store : Store) : Option Nat × Headers :=
  match Store.get store spanContextKey with
  | some (Dyn.span span) => (none, t.injectHeaders span.ctx headers)
  | _ => ((if abortOnErrors then some 500 else none), headers)

/-- OpenTracerGinMiddleware (middleware.go lines 11-35): on a pre-existing
store slot an unchecked type assertion recovers the parent span (panicking on
a non-Span value); otherwise StartSpanWithHeader is consulted, and on its
error the chain runs untraced.  The status tag written after ctx.Next() is
not a span lifecycle event and is not recorded. -/
def OpenTracerGinMiddleware (t : Tracer) (gor : Int) (prefixName : Option String)
    (method path : String) (headers : Headers) (next : Store → Outcome)
    (store : Store) : MwResult :=
  match Store.get store spanContextKey with
  | some (Dyn.span cspan) =>
      tracedResult
        (StartSpanWithParent t gor (some cspan.ctx)
          (prefixName.getD apiRequestDefault ++ " " ++ path) method path)
        next store
  | some Dyn.otherDyn =>
      { spanEvents := [], store := store, aborted := none, outcome := Outcome.panicked }
  | none =>
      match StartSpanWithHeader t gor (some headers)
          (prefixName.getD apiRequestDefault ++ " " ++ path) method path with
      | (_, some _) =>
          { spanEvents := [], store := store, aborted := none, outcome := next store }
      | (some span, none) => tracedResult span next store
      | (none, none) =>
          { spanEvents := [], store := store, aborted := none, outcome := Outcome.panicked }

/-- OpenTracerGorestMiddleware (middleware.go lines 38-68): the gorest twin
of OpenTracerGinMiddleware over r.Env. -/
def OpenTracerGorestMiddleware (t : Tracer) (gor : Int) (prefixName : Option String)
    (method path : String) (headers : Headers) (next : Store → Outcome)
    (env : Store) : MwResult :=
  match Store.get env spanContextKey with
  | some (Dyn.span cspan) =>
      tracedResult
        (StartSpanWithParent t gor (some cspan.ctx)
          (prefixName.getD apiRequestDefault ++ " " ++ path) method path)
        next env
  | some Dyn.otherDyn =>
      { spanEvents := [], store := env, aborted := none, outcome := Outcome.panicked }
  | none =>
      match StartSpanWithHeader t gor (some headers)
          (prefixName.getD apiRequestDefault ++ " " ++ path) method path with
      | (_, some _) =>
          { spanEvents := [], store := env, aborted := none, outcome := next env }
      | (some span, none) => tracedResult span next env
      | (none, none) =>
          { spanEvents := [], store := env, aborted := none, outcome := Outcome.panicked }

/-- opentracing.FinishOptions, kept abstract. -/
structure FinishOptions where
  payload : Nat
deriving DecidableEq

/-- opentracing log.Field, kept abstract. -/
structure LogField where
  payload : Nat
deriving DecidableEq

/-- opentracing.LogData, kept abstract. -/
structure LogData where
  payload : Nat
deriving DecidableEq

/-- The null span EmptySpan (span.go lines 531-557): an empty struct. -/
structure EmptySpan where
deriving DecidableEq

def EmptySpan.Finish (_ : EmptySpan) : Unit := ()

def EmptySpan.FinishWithOptions (_ : EmptySpan) (_ : FinishOptions) : Unit := ()

def EmptySpan.Context (_ : EmptySpan) : Option SpanContext := none

def EmptySpan.SetOperationName (_ : EmptySpan) (_ : String) : Option Span := none

def EmptySpan.SetTag (_ : EmptySpan) (_ : String) (_ : TagValue) : Option Span := none

def EmptySpan.LogFields (_ : EmptySpan) (_ : List LogField) : Unit := ()

def EmptySpan.LogKV (_ : EmptySpan) (_ : List TagValue) : Unit := ()

def EmptySpan.SetBaggageItem (_ : EmptySpan) (_ : String) (_ : String) : Option Span := none

def EmptySpan.BaggageItem (_ : EmptySpan) (_ : String) : String := ""

def EmptySpan.Tracer (_ : EmptySpan) : Option Tracer := none

def EmptySpan.LogEvent (_ : EmptySpan) (_ : String) : Unit := ()

def EmptySpan.LogEventWithPayload (_ : EmptySpan) (_ : String) (_ : TagValue) : Unit := ()

def EmptySpan.Log (_ : EmptySpan) (_ : LogData) : Unit := ()

/-- NewEmptySpan (span.go lines 527-529). -/
def NewEmptySpan : EmptySpan := {}

/-- Every span this middleware run started, it finished exactly once, and it
started each span at most once. -/
def finishesOwnStartsOnce (evs : List Ev) : Prop :=
  ∀ s : Span, countEv (Ev.finish s) evs = countEv (Ev.start s) evs ∧
    countEv (Ev.start s) evs ≤ 1

/-- The middleware neither aborted nor panicked, started no span, and left
the store unchanged: the request proceeds normally, untraced. -/
def untracedPass (r : MwResult) (store : Store) : Prop :=
  r.aborted = none ∧ r.outcome = Outcome.ok ∧ r.spanEvents = [] ∧ r.store = store

/- Concrete inputs for witnesses and counterexamples. -/

def e0 : ExtractErr := { code := 7 }

def ctx0 : SpanContext := { id := 0 }

def hdr0 : Headers := []

def next0 : Store → Outcome := fun _ => Outcome.ok

def psr0 : SpanContext → StartSpanOption := fun c => StartSpanOption.childOf c

def opName0 : String := apiRequestDefault

def method0 : String := httpMethodKey

def path0 : String := httpUrlKey

/-- A tracer whose extractions all fail with e0 and whose binary encoding of
any context is the three bytes [1, 2, 3]. -/
def tFail : Tracer :=
  { extractHeaders := fun _ => Except.error e0
    extractTextMap := fun _ => Except.error e0
    extractBinary := fun _ => Except.error e0
    injectBinary := fun _ => [1, 2, 3]
    injectHeaders := fun _ h => h
    nextCtx := ctx0 }

def span0 : Span := { operationName := opName0, opts := [], ctx := ctx0 }

theorem finishes_nil : finishesOwnStartsOnce [] := by
  intro s
  simp [countEv]

theorem finishes_traced (sp : Span) (next : Store → Outcome) (st : Store) :
    finishesOwnStartsOnce (tracedResult sp next st).spanEvents := by
  intro s
  by_cases h : sp = s
  · subst h
    simp [tracedResult, countEv]
  · simp [tracedResult, countEv, h]

/-- Claim C1: for every tracer, binary carrier and operation name,
StartSpanFromBinary first attempts extraction and returns a non-nil span
paired with the extraction result; when extraction fails it returns a usable
root span (no ChildOf option) together with the extraction error. -/
theorem c1_startSpanFromBinary_usable_span_and_error
    (t : Tracer) (gor : Int) (inter : TraceInfo) (operName : String) :
    (StartSpanFromBinary t gor inter operName).1.isSome = true ∧
    (StartSpanFromBinary t gor inter operName).2 = (ExtractFromBinary t inter).2 ∧
    (∀ e : ExtractErr, ExtractFromBinary t inter = (none, some e) →
      StartSpanFromBinary t gor inter operName =
        (some (StartSpanWithBinParent t gor none operName), some e) ∧
      isRootSpan (StartSpanWithBinParent t gor none operName)) := by
  refine ⟨rfl, rfl, ?_⟩
  intro e h
  refine ⟨?_, ?_⟩
  · simp [StartSpanFromBinary, h]
  · intro p
    simp [StartSpanWithBinParent, Tracer.startSpan, isRootSpan]

/-- Witness for C1 at a concrete failing extraction. -/
theorem c1_witness :
    StartSpanFromBinary tFail 0 { buf := [] } opName0 =
      (some (StartSpanWithBinParent tFail 0 none opName0), some e0) ∧
    isRootSpan (StartSpanWithBinParent tFail 0 none opName0) :=
  (c1_startSpanFromBinary_usable_span_and_error tFail 0 { buf := [] } opName0).2.2 e0 rfl

/-- Claim C2 (code bug): the part_002 variant of StartSpanWithHeader returns
(nil, err) when extraction from a non-nil header fails, instead of the root
span plus the error that the claim (and the otracing2gin variant, second
conjunct) prescribes. -/
theorem c2_startSpanWithHeader_nil_on_extract_error :
    StartSpanWithHeader tFail 0 (some hdr0) opName0 method0 path0 = (none, some e0) ∧
    Otracing2gin.StartSpanWithHeader tFail 0 (some hdr0) opName0 method0 path0 =
      StartSpanWithParent tFail 0 none opName0 method0 path0 :=
  ⟨rfl, rfl⟩

/-- Claim C3 (code bug): the third-segment InjectToBinary appends the
encoding, leaving the stale bytes [9, 9] in the caller-owned buffer, while
the resetting variant leaves exactly the fresh encoding. -/
theorem c3_injectToBinary_keeps_stale_bytes_without_reset :
    (SpanV3.InjectToBinary tFail ctx0 { buf := [9, 9] }).buf = [9, 9, 1, 2, 3] ∧
    [9, 9, 1, 2, 3] ≠ tFail.injectBinary ctx0 ∧
    (InjectToBinary tFail ctx0 { buf := [9, 9] }).buf = tFail.injectBinary ctx0 := by
  refine ⟨rfl, ?_, rfl⟩
  decide

/-- Counterexample to claim C4 as stated: the gin middleware's own lookup of
a pre-existing span is an unchecked type assertion, and it panics when the
slot holds a non-Span value. -/
theorem c4_counterexample_middleware_lookup_panics :
    (OpenTracerGinMiddleware tFail 0 none method0 path0 hdr0 next0
        [(spanContextKey, Dyn.otherDyn)]).outcome = Outcome.panicked := by
  simp [OpenTracerGinMiddleware, Store.get]

/-- Claim C4 as amended: the helper retrievals GetGinSpan and GetGorestSpan
are checked, returning a found span or ErrSpanNotFound for every store and
never panicking, while the middlewares' own lookup of a pre-existing span
panics exactly when the slot holds a non-Span value. -/
theorem c4_amended_lookups :
    (∀ (store : Store) (s : Span),
      Store.get store spanContextKey = some (Dyn.span s) →
        GetGinSpan store = (some s, none) ∧ GetGorestSpan store = (some s, none)) ∧
    (∀ store : Store, noSpanSlot store →
      GetGinSpan store = (none, some ErrSpanNotFound) ∧
      GetGorestSpan store = (none, some ErrSpanNotFound)) ∧
    (∀ (t : Tracer) (gor : Int) (pn : Option String) (method path : String)
       (headers : Headers) (next : Store → Outcome) (store : Store),
      Store.get store spanContextKey = some Dyn.otherDyn →
        (OpenTracerGinMiddleware t gor pn method path headers next store).outcome =
          Outcome.panicked ∧
        (OpenTracerGorestMiddleware t gor pn method path headers next store).outcome =
          Outcome.panicked) := by
  refine ⟨?_, ?_, ?_⟩
  · intro store s h
    constructor <;> simp [GetGinSpan, GetGorestSpan, h]
  · intro store h
    cases h with
    | inl h => constructor <;> simp [GetGinSpan, GetGorestSpan, h]
    | inr h => constructor <;> simp [GetGinSpan, GetGorestSpan, h]
  · intro t gor pn method path headers next store h
    constructor <;> simp [OpenTracerGinMiddleware, OpenTracerGorestMiddleware, h]

/-- Witness for C4's amended claim at concrete stores. -/
theorem c4_witness :
    GetGinSpan [(spanContextKey, Dyn.span span0)] = (some span0, none) ∧
    (OpenTracerGorestMiddleware tFail 0 none method0 path0 hdr0 next0
        [(spanContextKey, Dyn.otherDyn)]).outcome = Outcome.panicked := by
  refine ⟨?_, ?_⟩
  · exact (c4_amended_lookups.1 [(spanContextKey, Dyn.span span0)] span0 rfl).1
  · exact (c4_amended_lookups.2.2 tFail 0 none method0 path0 hdr0 next0
      [(spanContextKey, Dyn.otherDyn)] rfl).2

/-- Claim C5: on a store whose tracing-context slot never received a span
(absent or non-Span), GetGinSpan and GetGorestSpan return nil together with
the explicit ErrSpanNotFound, never a silent null span. -/
theorem c5_get_span_not_found (store : Store) (h : noSpanSlot store) :
    GetGinSpan store = (none, some ErrSpanNotFound) ∧
    GetGorestSpan store = (none, some ErrSpanNotFound) := by
  cases h with
  | inl h => constructor <;> simp [GetGinSpan, GetGorestSpan, h]
  | inr h => constructor <;> simp [GetGinSpan, GetGorestSpan, h]

/-- Witness for C5 at the empty store. -/
theorem c5_witness :
    GetGinSpan [] = (none, some ErrSpanNotFound) ∧
    GetGorestSpan [] = (none, some ErrSpanNotFound) :=
  c5_get_span_not_found [] (Or.inl rfl)

/-- Claim C6: every method of the null span EmptySpan is total and returns
the documented neutral value for every input: BaggageItem the empty string,
Context nil, Tracer nil, and all mutating or lifecycle methods are no-ops
(their bodies are empty; the spec's neutral nil is returned where the
interface returns a span). -/
theorem c6_emptySpan_neutral (e : EmptySpan) (k v : String) (tv : TagValue)
    (fo : FinishOptions) (fs : List LogField) (kvs : List TagValue) (d : LogData) :
    e.BaggageItem k = "" ∧ e.Context = none ∧ e.Tracer = none ∧
    e.Finish = () ∧ e.FinishWithOptions fo = () ∧
    e.SetOperationName k = none ∧ e.SetTag k tv = none ∧
    e.SetBaggageItem k v = none ∧ e.LogFields fs = () ∧ e.LogKV kvs = () ∧
    e.LogEvent k = () ∧ e.LogEventWithPayload k tv = () ∧ e.Log d = () :=
  ⟨rfl, rfl, rfl, rfl, rfl, rfl, rfl, rfl, rfl, rfl, rfl, rfl, rfl⟩

/-- Claim C7: each span-starting middleware finishes exactly the spans it
starts, exactly once per request, on every exit path of the handling scope
including extraction-failure and panic paths (the deferred Finish runs during
panic unwinding of the rest of the chain). -/
theorem c7_middleware_finishes_spans_exactly_once :
    (∀ (t : Tracer) (gor : Int) (pn : Option String) (method path : String)
       (headers : Headers) (next : Store → Outcome) (store : Store),
      finishesOwnStartsOnce
        (OpenTracerGinMiddleware t gor pn method path headers next store).spanEvents) ∧
    (∀ (t : Tracer) (gor : Int) (pn : Option String) (method path : String)
       (headers : Headers) (next : Store → Outcome) (env : Store),
      finishesOwnStartsOnce
        (OpenTracerGorestMiddleware t gor pn method path headers next env).spanEvents) ∧
    (∀ (t : Tracer) (operationName : String) (opts : List StartSpanOption)
       (next : Store → Outcome) (store : Store),
      finishesOwnStartsOnce (NewSpan t operationName opts next store).spanEvents) ∧
    (∀ (t : Tracer) (operationName : String) (psr : SpanContext → StartSpanOption)
       (ab : Bool) (advancedOpts : List StartSpanOption) (headers : Headers)
       (next : Store → Outcome) (store : Store),
      finishesOwnStartsOnce
        (SpanFromHeaders t operationName psr ab advancedOpts headers next store).spanEvents) ∧
    (∀ (t : Tracer) (operationName : String) (ab : Bool)
       (advancedOpts : List StartSpanOption) (next : Store → Outcome) (store : Store),
      finishesOwnStartsOnce
        (SpanFromContext t operationName ab advancedOpts next store).spanEvents) := by
  refine ⟨?_, ?_, ?_, ?_, ?_⟩
  · intro t gor pn method path headers next store
    unfold OpenTracerGinMiddleware
    split
    · exact finishes_traced _ _ _
    · exact finishes_nil
    · split
      · exact finishes_nil
      · exact finishes_traced _ _ _
      · exact finishes_nil
  · intro t gor pn method path headers next env
    unfold OpenTracerGorestMiddleware
    split
    · exact finishes_traced _ _ _
    · exact finishes_nil
    · split
      · exact finishes_nil
      · exact finishes_traced _ _ _
      · exact finishes_nil
  · intro t operationName opts next store
    exact finishes_traced _ _ _
  · intro t operationName psr ab advancedOpts headers next store
    unfold SpanFromHeaders
    split
    · exact finishes_nil
    · exact finishes_traced _ _ _
  · intro t operationName ab advancedOpts next store
    unfold SpanFromContext
    split
    · exact finishes_traced _ _ _
    · exact finishes_nil

/-- Claim C8: on an inbound tracing failure (header extraction fails in
SpanFromHeaders / SpanFromHeadersHTTPFmt, or the active span is missing in
SpanFromContext / InjectToHeaders), abortOnErrors = true aborts the request
with HTTP 500 while abortOnErrors = false lets the request proceed normally,
untraced. -/
theorem c8_abortOnErrors_behavior :
    (∀ (t : Tracer) (operationName : String) (psr : SpanContext → StartSpanOption)
       (advancedOpts : List StartSpanOption) (headers : Headers)
       (next : Store → Outcome) (store : Store) (e : ExtractErr),
      t.extractTextMap headers = Except.error e →
        (SpanFromHeaders t operationName psr true advancedOpts headers next store).aborted =
          some 500 ∧
        untracedPass
          (SpanFromHeaders t operationName psr false advancedOpts headers next store) store) ∧
    (∀ (t : Tracer) (operationName : String) (psr : SpanContext → StartSpanOption)
       (advancedOpts : List StartSpanOption) (headers : Headers)
       (next : Store → Outcome) (store : Store) (e : ExtractErr),
      t.extractHeaders headers = Except.error e →
        (SpanFromHeadersHTTPFmt t operationName psr true advancedOpts headers next store).aborted =
          some 500 ∧
        untracedPass
          (SpanFromHeadersHTTPFmt t operationName psr false advancedOpts headers next store)
          store) ∧
    (∀ (t : Tracer) (operationName : String) (advancedOpts : List StartSpanOption)
       (next : Store → Outcome) (store : Store),
      noSpanSlot store →
        (SpanFromContext t operationName true advancedOpts next store).aborted = some 500 ∧
        untracedPass (SpanFromContext t operationName false advancedOpts next store) store) ∧
    (∀ (t : Tracer) (headers : Headers) (store : Store),
      noSpanSlot store →
        (InjectToHeaders t true headers store).1 = some 500 ∧
        InjectToHeaders t false headers store = (none, headers)) := by
  refine ⟨?_, ?_, ?_, ?_⟩
  · intro t operationName psr advancedOpts headers next store e h
    constructor
    · simp [SpanFromHeaders, h]
    · simp [SpanFromHeaders, h, untracedPass]
  · intro t operationName psr advancedOpts headers next store e h
    constructor
    · simp [SpanFromHeadersHTTPFmt, h]
    · simp [SpanFromHeadersHTTPFmt, h, untracedPass]
  · intro t operationName advancedOpts next store h
    cases h with
    | inl h =>
        constructor
        · simp [SpanFromContext, h]
        · simp [SpanFromContext, h, untracedPass]
    | inr h =>
        constructor
        · simp [SpanFromContext, h]
        · simp [SpanFromContext, h, untracedPass]
  · intro t headers store h
    cases h with
    | inl h => constructor <;> simp [InjectToHeaders, h]
    | inr h => constructor <;> simp [InjectToHeaders, h]

/-- Witness for C8 at a concrete failing tracer and empty store. -/
theorem c8_witness :
    (SpanFromHeaders tFail opName0 psr0 true [] hdr0 next0 []).aborted = some 500 ∧
    untracedPass (SpanFromHeaders tFail opName0 psr0 false [] hdr0 next0 []) [] ∧
    (SpanFromContext tFail opName0 true [] next0 []).aborted = some 500 ∧
    (InjectToHeaders tFail true hdr0 []).1 = some 500 := by
  have h1 := c8_abortOnErrors_behavior.1 tFail opName0 psr0 [] hdr0 next0 [] e0 rfl
  have h3 := c8_abortOnErrors_behavior.2.2.1 tFail opName0 [] next0 [] (Or.inl rfl)
  have h4 := c8_abortOnErrors_behavior.2.2.2 tFail hdr0 [] (Or.inl rfl)
  exact ⟨h1.1, h1.2, h3.1, h4.1⟩

/-- Claim C9: StartSpanWithParent with nil parent starts exactly the span
StartSpan starts; with a non-nil parent its options carry a ChildOf reference
to that parent; in both cases the options carry the server span-kind tag, the
HTTP method and URL tags, and the current-goroutines gauge. -/
theorem c9_startSpanWithParent_root_and_child_tags
    (t : Tracer) (gor : Int) (operationName method path : String) :
    StartSpan t gor operationName method path =
      StartSpanWithParent t gor none operationName method path ∧
    (∀ p : SpanContext, StartSpanOption.childOf p ∈
      (StartSpanWithParent t gor (some p) operationName method path).opts) ∧
    (∀ parent : Option SpanContext,
      StartSpanOption.tag { key := spanKindKey, value := TagValue.str spanKindServerValue } ∈
        (StartSpanWithParent t gor parent operationName method path).opts ∧
      StartSpanOption.tag { key := httpMethodKey, value := TagValue.str method } ∈
        (StartSpanWithParent t gor parent operationName method path).opts ∧
      StartSpanOption.tag { key := httpUrlKey, value := TagValue.str path } ∈
        (StartSpanWithParent t gor parent operationName method path).opts ∧
      StartSpanOption.tag { key := goroutinesKey, value := TagValue.int gor } ∈
        (StartSpanWithParent t gor parent operationName method path).opts) := by
  refine ⟨rfl, ?_, ?_⟩
  · intro p
    simp [StartSpanWithParent, Tracer.startSpan]
  · intro parent
    cases parent with
    | none => refine ⟨?_, ?_, ?_, ?_⟩ <;> simp [StartSpanWithParent, Tracer.startSpan]
    | some p => refine ⟨?_, ?_, ?_, ?_⟩ <;> simp [StartSpanWithParent, Tracer.startSpan]

/-- Claim C10: when header extraction fails, SpanFromHeaders and
SpanFromHeadersHTTPFmt start no span and leave the request-scoped store
unchanged for any abortOnErrors, so GetGinSpan afterwards returns
ErrSpanNotFound unless a span was already stored, in which case that span is
still returned. -/
theorem c10_extract_failure_leaves_store_unchanged
    (t : Tracer) (operationName : String) (psr : SpanContext → StartSpanOption)
    (ab : Bool) (advancedOpts : List StartSpanOption) (headers : Headers)
    (next : Store → Outcome) (store : Store) :
    (∀ e : ExtractErr, t.extractTextMap headers = Except.error e →
      (SpanFromHeaders t operationName psr ab advancedOpts headers next store).store = store ∧
      (SpanFromHeaders t operationName psr ab advancedOpts headers next store).spanEvents
        = [] ∧
      (noSpanSlot store →
        GetGinSpan
            (SpanFromHeaders t operationName psr ab advancedOpts headers next store).store =
          (none, some ErrSpanNotFound)) ∧
      (∀ s : Span, Store.get store spanContextKey = some (Dyn.span s) →
        GetGinSpan
            (SpanFromHeaders t operationName psr ab advancedOpts headers next store).store =
          (some s, none))) ∧
    (∀ e : ExtractErr, t.extractHeaders headers = Except.error e →
      (SpanFromHeadersHTTPFmt t operationName psr ab advancedOpts headers next store).store
        = store ∧
      (SpanFromHeadersHTTPFmt t operationName psr ab advancedOpts headers next store).spanEvents
        = [] ∧
      (noSpanSlot store →
        GetGinSpan
            (SpanFromHeadersHTTPFmt t operationName psr ab advancedOpts headers
              next store).store =
          (none, some ErrSpanNotFound)) ∧
      (∀ s : Span, Store.get store spanContextKey = some (Dyn.span s) →
        GetGinSpan
            (SpanFromHeadersHTTPFmt t operationName psr ab advancedOpts headers
              next store).store =
          (some s, none))) := by
  constructor
  · intro e h
    have hst : (SpanFromHeaders t operationName psr ab advancedOpts headers next store).store
        = store := by
      simp [SpanFromHeaders, h]
    refine ⟨hst, ?_, ?_, ?_⟩
    · simp [SpanFromHeaders, h]
    · intro hn
      rw [hst]
      cases hn with
      | inl hn => simp [GetGinSpan, hn]
      | inr hn => simp [GetGinSpan, hn]
    · intro s hs
      rw [hst]
      simp [GetGinSpan, hs]
  · intro e h
    have hst :
        (SpanFromHeadersHTTPFmt t operationName psr ab advancedOpts headers next store).store
          = store := by
      simp [SpanFromHeadersHTTPFmt, h]
    refine ⟨hst, ?_, ?_, ?_⟩
    · simp [SpanFromHeadersHTTPFmt, h]
    · intro hn
      rw [hst]
      cases hn with
      | inl hn => simp [GetGinSpan, hn]
      | inr hn => simp [GetGinSpan, hn]
    · intro s hs
      rw [hst]
      simp [GetGinSpan, hs]

/-- Witness for C10 at a concrete failing tracer, both abort settings. -/
theorem c10_witness :
    (SpanFromHeaders tFail opName0 psr0 true [] hdr0 next0 []).store = [] ∧
    (SpanFromHeaders tFail opName0 psr0 false [] hdr0 next0 []).spanEvents = [] ∧
    GetGinSpan (SpanFromHeadersHTTPFmt tFail opName0 psr0 false [] hdr0 next0 []).store =
      (none, some ErrSpanNotFound) := by
  have h1 := (c10_extract_failure_leaves_store_unchanged tFail opName0 psr0 true [] hdr0
      next0 []).1 e0 rfl
  have h2 := (c10_extract_failure_leaves_store_unchanged tFail opName0 psr0 false [] hdr0
      next0 []).1 e0 rfl
  have h3 := (c10_extract_failure_leaves_store_unchanged tFail opName0 psr0 false [] hdr0
      next0 []).2 e0 rfl
  exact ⟨h1.1, h2.2.1, h3.2.2.1 (Or.inl rfl)⟩
